import Mathlib

/-!
Shallow embedding of the authentication and role-authorization subsystem of
src/SistemaPanaderia/app.py (a Streamlit + SQLite bakery MRP application).

The usuarios table becomes a list of Usuario records, the logs_sistema table a
list of LogEntry records, and SQLite AUTOINCREMENT a nextId counter carried in
the DB state.  The underlying 256-bit hash (hashlib.sha256(...).hexdigest()) is
abstracted as a parameter sha : String -> String; hash_password applies it to
the password concatenated with the fixed salt and the secret key, exactly as
the Python function does.  CURRENT_TIMESTAMP is abstracted as a Nat parameter
called now.

Storage-layer faults (the exceptions the Python try/except blocks catch) are
modelled by a Faults record of flags saying which database step raises; each
fallible function is written as a body in the Except monad (the try block,
errors carrying the database state already committed at the point of the
raise) plus a total wrapper performing the except clause.
-/

namespace Panaderia

/-- Fixed application-wide salt, the literal from hash_password in app.py. -/
def salt : String := "paraderia-salt-2024-streamlit-"

/-- Fallback secret key literal from app.py (st.secrets may override it at
deployment; no claim depends on its value). -/
def SECRET_KEY : String := "paraderia-mrp-2024-secure-key-streamlit-cloud"

/-- hash_password from app.py: sha256 over password ++ salt ++ SECRET_KEY,
with the digest function sha taken as a parameter. -/
def hash_password (sha : String → String) (password : String) : String :=
  sha (password ++ salt ++ SECRET_KEY)

/-- One row of the usuarios table.  Optional SQL columns that the code reads
as plain strings are modelled as String (NULL read back as ""); creado_por and
ultimo_acceso, which the code never concatenates, stay Option. -/
structure Usuario where
  id : Nat
  username : String
  nombre : String
  rol : String
  password : String
  permisos : String
  email : String
  telefono : String
  departamento : String
  creado_por : Option Nat
  fecha_creacion : Nat
  ultimo_acceso : Option Nat
  activo : Bool
deriving Repr, DecidableEq

/-- One row of the logs_sistema table (columns the code writes). -/
structure LogEntry where
  usuario_id : Option Nat
  modulo : String
  accion : String
  detalles : String
deriving Repr, DecidableEq

/-- Committed database state: the usuarios and logs_sistema tables plus the
AUTOINCREMENT counter for usuarios.id. -/
structure DB where
  usuarios : List Usuario
  logs : List LogEntry
  nextId : Nat
deriving Repr, DecidableEq

/-- The freshly created schema: empty tables, AUTOINCREMENT starts at 1. -/
def emptyDB : DB := ⟨[], [], 1⟩

/-- The value autenticar_usuario returns on success: exactly the five columns
of its SELECT (id, username, nombre, rol, permisos).  The stored password
digest has no field here. -/
structure Identity where
  id : Nat
  username : String
  nombre : String
  rol : String
  permisos : String
deriving Repr, DecidableEq

/-- Projection of a row to the SELECTed columns of autenticar_usuario. -/
def toIdentity (r : Usuario) : Identity :=
  ⟨r.id, r.username, r.nombre, r.rol, r.permisos⟩

/-- Which database step raises a storage-layer exception.  lookup covers the
connection and the SELECT; touch the ultimo_acceso UPDATE and its commit;
logOk / logFail the success / failure audit INSERT; insertUser and insertLog
the two INSERT+commit steps of crear_usuario_sistema. -/
structure Faults where
  lookup : Bool
  touch : Bool
  logOk : Bool
  logFail : Bool
  insertUser : Bool
  insertLog : Bool
deriving Repr, DecidableEq

/-- The fault-free schedule: no database step raises. -/
def noFaults : Faults := ⟨false, false, false, false, false, false⟩

/-- The SELECT of autenticar_usuario: first row with this username, this
password digest and activo = 1. -/
def buscarCredencial (db : DB) (u hp : String) : Option Usuario :=
  db.usuarios.find? (fun r => r.username == u && r.password == hp && r.activo)

/-- UPDATE usuarios SET ultimo_acceso = CURRENT_TIMESTAMP WHERE id = uid. -/
def touchUltimoAcceso (db : DB) (uid : Nat) (now : Nat) : DB :=
  { db with
    usuarios := db.usuarios.map (fun r =>
      if r.id == uid then { r with ultimo_acceso := some now } else r) }

/-- INSERT INTO logs_sistema. -/
def addLog (db : DB) (e : LogEntry) : DB := { db with logs := db.logs ++ [e] }

/-- The try block of autenticar_usuario: hash the password, SELECT the
matching active row; on match UPDATE ultimo_acceso, log LOGIN_EXITOSO and
return the row as an Identity; on no match log LOGIN_FALLIDO and return
none.  A thrown error carries the database state committed so far. -/
def autenticarBody (sha : String → String) (now : Nat) (f : Faults) (db : DB)
    (username password : String) : Except DB (Option Identity × DB) := do
  if f.lookup then throw db
  let hp := hash_password sha password
  match buscarCredencial db username hp with
  | some usuario =>
      if f.touch then throw db
      let db1 := touchUltimoAcceso db usuario.id now
      if f.logOk then throw db1
      let db2 := addLog db1
        ⟨some usuario.id, "AUTH", "LOGIN_EXITOSO", "Usuario: " ++ username⟩
      return (some (toIdentity usuario), db2)
  | none =>
      if f.logFail then throw db
      let db1 := addLog db
        ⟨none, "AUTH", "LOGIN_FALLIDO",
          "Intento fallido para usuario: " ++ username⟩
      return (none, db1)

/-- autenticar_usuario with an explicit fault schedule: the except clause
maps any raised storage fault to None (the internal detail is discarded). -/
def autenticarF (sha : String → String) (now : Nat) (f : Faults) (db : DB)
    (username password : String) : Option Identity × DB :=
  match autenticarBody sha now f db username password with
  | .ok r => r
  | .error dbf => (none, dbf)

/-- autenticar_usuario from app.py, on a fault-free run. -/
def autenticar_usuario (sha : String → String) (now : Nat) (db : DB)
    (username password : String) : Option Identity × DB :=
  autenticarF sha now noFaults db username password

/-- The datos_usuario dict passed to crear_usuario_sistema: the four required
keys and the four the code reads with .get(k, default ""). -/
structure DatosUsuario where
  username : Option String
  nombre : Option String
  rol : Option String
  password : Option String
  permisos : Option String
  email : Option String
  telefono : Option String
  departamento : Option String
deriving Repr, DecidableEq

/-- The try block of crear_usuario_sistema, in the order the Python evaluates:
read datos_usuario at key username (KeyError if absent), SELECT for a
duplicate, hash the password (KeyError if absent), build the INSERT row
(KeyError if nombre or rol absent), INSERT the user and commit, INSERT the
CREACION log and commit.  A thrown error carries a detail string (the str(e)
of the exception, KeyError details written without quote marks) and the
database state committed so far. -/
def crearBody (sha : String → String) (now : Nat) (f : Faults) (db : DB)
    (admin_id : Nat) (d : DatosUsuario) :
    Except (String × DB) (Bool × String × DB) := do
  if f.lookup then throw ("database error", db)
  match d.username with
  | none => throw ("KeyError: username", db)
  | some u =>
    if db.usuarios.any (fun r => r.username == u) then
      return (false, "El nombre de usuario ya existe", db)
    match d.password with
    | none => throw ("KeyError: password", db)
    | some pw =>
      match d.nombre with
      | none => throw ("KeyError: nombre", db)
      | some nom =>
        match d.rol with
        | none => throw ("KeyError: rol", db)
        | some rol =>
          if f.insertUser then throw ("database error", db)
          let nuevo : Usuario :=
            ⟨db.nextId, u, nom, rol, hash_password sha pw,
              d.permisos.getD "", d.email.getD "", d.telefono.getD "",
              d.departamento.getD "", some admin_id, now, none, true⟩
          let db1 : DB :=
            { db with usuarios := db.usuarios ++ [nuevo],
                      nextId := db.nextId + 1 }
          if f.insertLog then throw ("database error", db1)
          let db2 := addLog db1
            ⟨some admin_id, "USUARIOS", "CREACION", "Usuario creado: " ++ u⟩
          return (true, "✅ Usuario creado exitosamente", db2)

/-- crear_usuario_sistema with an explicit fault schedule: the except clause
returns (False, "❌ Error: " ++ str(e)); the database keeps whatever was
committed before the raise. -/
def crearF (sha : String → String) (now : Nat) (f : Faults) (db : DB)
    (admin_id : Nat) (d : DatosUsuario) : Bool × String × DB :=
  match crearBody sha now f db admin_id d with
  | .ok r => r
  | .error (e, dbf) => (false, "❌ Error: " ++ e, dbf)

/-- crear_usuario_sistema from app.py, on a fault-free run. -/
def crear_usuario_sistema (sha : String → String) (now : Nat) (db : DB)
    (admin_id : Nat) (d : DatosUsuario) : Bool × String × DB :=
  crearF sha now noFaults db admin_id d

/-- The admin row init_database seeds: INSERT of username admin, nombre
Administrador Principal, rol admin, the digest of Admin2024!, permisos all,
email, creado_por 1; telefono and departamento NULL, activo defaults to 1. -/
def adminUsuario (sha : String → String) (now : Nat) (id : Nat) : Usuario :=
  ⟨id, "admin", "Administrador Principal", "admin",
    hash_password sha "Admin2024!", "all", "admin@paraderia.com", "", "",
    some 1, now, none, true⟩

/-- The bootstrap step of init_database: SELECT COUNT(*) WHERE username =
admin; if zero, INSERT the seeded admin row (table creation is schema-only
and not modelled; the literal string admin is the username checked). -/
def init_database (sha : String → String) (now : Nat) (db : DB) : DB :=
  if db.usuarios.countP (fun r => r.username == "admin") = 0 then
    { db with usuarios := db.usuarios ++ [adminUsuario sha now db.nextId],
              nextId := db.nextId + 1 }
  else db

/-- The password-change form handler inside mostrar_gestion_usuarios: reject
empty fields, mismatched confirmation, or a new password under 6 characters;
otherwise SELECT the stored digest by id, compare with the digest of the
current password, and on match UPDATE the stored digest and log
CAMBIO_PASSWORD. -/
def cambiar_password (sha : String → String) (db : DB) (uid : Nat)
    (actual nueva confirmar : String) : Bool × String × DB :=
  if actual == "" || nueva == "" || confirmar == "" then
    (false, "❌ Complete todos los campos", db)
  else if nueva != confirmar then
    (false, "❌ Las contraseñas nuevas no coinciden", db)
  else if nueva.length < 6 then
    (false, "❌ La nueva contraseña debe tener al menos 6 caracteres", db)
  else
    match db.usuarios.find? (fun r => r.id == uid) with
    | some r =>
      if hash_password sha actual == r.password then
        let db1 : DB :=
          { db with usuarios := db.usuarios.map (fun x =>
              if x.id == uid then { x with password := hash_password sha nueva }
              else x) }
        let db2 := addLog db1
          ⟨some uid, "USUARIOS", "CAMBIO_PASSWORD", "Usuario cambió su contraseña"⟩
        (true, "✅ Contraseña cambiada exitosamente", db2)
      else (false, "❌ Contraseña actual incorrecta", db)
    | none => (false, "❌ Contraseña actual incorrecta", db)

/-- The role-conditional menu of mostrar_menu_principal: the list of module
keys whose tab is built for a given rol (dashboard, inventario, usuarios,
ventas, reportes, configuracion). -/
def opciones_menu (rol : String) : List String :=
  if rol == "admin" then
    ["dashboard", "inventario", "usuarios", "ventas", "reportes", "configuracion"]
  else if rol == "ventas" then
    ["dashboard", "inventario", "ventas", "reportes"]
  else if rol == "produccion" then
    ["dashboard", "inventario", "reportes"]
  else
    ["dashboard", "inventario"]

/-- isAllowed of the spec, read off the code: a role may access a section
exactly when mostrar_menu_principal builds that tab for it. -/
def isAllowed (rol seccion : String) : Bool :=
  (opciones_menu rol).contains seccion

/-- One user-level operation of the modelled subsystem, with its timestamp
and fault schedule where the code has them. -/
inductive Op where
  | opInit (now : Nat)
  | opCrear (now : Nat) (admin_id : Nat) (d : DatosUsuario) (f : Faults)
  | opCambiar (uid : Nat) (actual nueva confirmar : String)
  | opAuth (now : Nat) (username password : String) (f : Faults)
deriving Repr

/-- Effect of one operation on the committed database state. -/
def applyOp (sha : String → String) (db : DB) : Op → DB
  | .opInit now => init_database sha now db
  | .opCrear now a d f => (crearF sha now f db a d).2.2
  | .opCambiar uid a n c => (cambiar_password sha db uid a n c).2.2
  | .opAuth now u p f => (autenticarF sha now f db u p).2

/-- Database state after system initialization on a fresh store followed by
any sequence of modelled operations. -/
def run (sha : String → String) (ops : List Op) : DB :=
  ops.foldl (applyOp sha) (init_database sha 0 emptyDB)

/-- Concrete digest stand-in used to instantiate the abstract sha when a
statement is evaluated on explicit inputs (injective, so distinct passwords
give distinct digests, as a collision-resistant hash does on short inputs). -/
def shaId : String → String := fun s => s

/-- A concrete production-role user whose stored digest is the shaId digest
of Baker99, mirroring the jdoe scenario of the spec. -/
def jdoeUsuario : Usuario :=
  ⟨2, "jdoe", "John Doe", "produccion", hash_password shaId "Baker99",
    "", "", "", "", some 1, 0, none, true⟩

/-- Store holding only the jdoe user. -/
def dbJdoe : DB := ⟨[jdoeUsuario], [], 3⟩

/-- The same store with jdoe deactivated. -/
def dbJdoeInactivo : DB := ⟨[{ jdoeUsuario with activo := false }], [], 3⟩

/-- A fresh-user form input with every required key present. -/
def datosMaria : DatosUsuario :=
  ⟨some "maria", some "Maria Lopez", some "ventas", some "Clave123",
    some "", some "", some "", some ""⟩

end Panaderia
namespace Panaderia

theorem buscarCredencial_eq_none (db : DB) (u hp : String)
    (h : ∀ r ∈ db.usuarios, r.username = u → r.activo = false) :
    buscarCredencial db u hp = none := by
  apply List.find?_eq_none.mpr
  intro r hr
  by_cases hu : r.username = u
  · have := h r hr hu
    simp [this]
  · simp [hu]

theorem autenticar_noMatch (sha : String → String) (now : Nat) (db : DB)
    (u p : String) (h : buscarCredencial db u (hash_password sha p) = none) :
    autenticar_usuario sha now db u p =
      (none, addLog db ⟨none, "AUTH", "LOGIN_FALLIDO",
        "Intento fallido para usuario: " ++ u⟩) := by
  simp [autenticar_usuario, autenticarF, autenticarBody, noFaults, h, pure, Except.pure, bind, Except.bind]

theorem autenticar_match (sha : String → String) (now : Nat) (db : DB)
    (u p : String) (rec : Usuario)
    (h : buscarCredencial db u (hash_password sha p) = some rec) :
    autenticar_usuario sha now db u p =
      (some (toIdentity rec), addLog (touchUltimoAcceso db rec.id now)
        ⟨some rec.id, "AUTH", "LOGIN_EXITOSO", "Usuario: " ++ u⟩) := by
  simp [autenticar_usuario, autenticarF, autenticarBody, noFaults, h, pure, Except.pure, bind, Except.bind]

end Panaderia
namespace Panaderia

theorem crear_duplicate (sha : String → String) (now : Nat) (db : DB)
    (aid : Nat) (d : DatosUsuario) (u : String) (hu : d.username = some u)
    (hdup : ∃ r ∈ db.usuarios, r.username = u) :
    crear_usuario_sistema sha now db aid d =
      (false, "El nombre de usuario ya existe", db) := by
  have hany : db.usuarios.any (fun r => r.username == u) = true := by
    obtain ⟨r, hr, hru⟩ := hdup
    exact List.any_eq_true.mpr ⟨r, hr, by simp [hru]⟩
  simp [crear_usuario_sistema, crearF, crearBody, noFaults, hu, hany,
    pure, Except.pure, bind, Except.bind]

theorem crear_ok (sha : String → String) (now : Nat) (db : DB) (aid : Nat)
    (d : DatosUsuario) (u nom rol pw : String)
    (hu : d.username = some u) (hn : d.nombre = some nom)
    (hr : d.rol = some rol) (hp : d.password = some pw)
    (hfresh : ∀ r ∈ db.usuarios, r.username ≠ u) :
    crear_usuario_sistema sha now db aid d =
      (true, "✅ Usuario creado exitosamente",
        addLog
          { db with
            usuarios := db.usuarios ++
              [⟨db.nextId, u, nom, rol, hash_password sha pw,
                d.permisos.getD "", d.email.getD "", d.telefono.getD "",
                d.departamento.getD "", some aid, now, none, true⟩],
            nextId := db.nextId + 1 }
          ⟨some aid, "USUARIOS", "CREACION", "Usuario creado: " ++ u⟩) := by
  have hany : db.usuarios.any (fun r => r.username == u) = false := by
    rw [← Bool.not_eq_true, List.any_eq_true]
    rintro ⟨r, hrmem, hru⟩
    exact hfresh r hrmem (by simpa using hru)
  simp [crear_usuario_sistema, crearF, crearBody, noFaults, hu, hn, hr, hp,
    hany, pure, Except.pure, bind, Except.bind]

theorem crearF_logFault (sha : String → String) (now : Nat) (db : DB)
    (aid : Nat) (d : DatosUsuario) (u nom rol pw : String)
    (hu : d.username = some u) (hn : d.nombre = some nom)
    (hr : d.rol = some rol) (hp : d.password = some pw)
    (hfresh : ∀ r ∈ db.usuarios, r.username ≠ u) :
    crearF sha now ⟨false, false, false, false, false, true⟩ db aid d =
      (false, "❌ Error: database error",
        { db with
          usuarios := db.usuarios ++
            [⟨db.nextId, u, nom, rol, hash_password sha pw,
              d.permisos.getD "", d.email.getD "", d.telefono.getD "",
              d.departamento.getD "", some aid, now, none, true⟩],
          nextId := db.nextId + 1 }) := by
  have hany : db.usuarios.any (fun r => r.username == u) = false := by
    rw [← Bool.not_eq_true, List.any_eq_true]
    rintro ⟨r, hrmem, hru⟩
    exact hfresh r hrmem (by simpa using hru)
  simp [crearF, crearBody, hu, hn, hr, hp, hany,
    pure, Except.pure, bind, Except.bind]

theorem crearF_usuarios_extend (sha : String → String) (now : Nat)
    (f : Faults) (db : DB) (aid : Nat) (d : DatosUsuario) :
    ∃ t, (crearF sha now f db aid d).2.2.usuarios = db.usuarios ++ t := by
  rcases f with ⟨fl, ft, flo, flf, fiu, fil⟩
  rcases hu : d.username with _ | u
  · cases fl <;>
      simp [crearF, crearBody, hu, pure, Except.pure, bind, Except.bind]
  · by_cases hany : db.usuarios.any (fun r => r.username == u) = true <;>
      cases fl <;>
      rcases hp : d.password with _ | pw <;>
      rcases hn : d.nombre with _ | nom <;>
      rcases hr : d.rol with _ | rol <;>
      cases fiu <;> cases fil <;>
      simp [crearF, crearBody, hu, hp, hn, hr, hany, addLog,
        pure, Except.pure, bind, Except.bind]

end Panaderia
namespace Panaderia

theorem tieneAdmin_append (l t : List Usuario) (h : ∃ r ∈ l, r.rol = "admin") :
    ∃ r ∈ l ++ t, r.rol = "admin" := by
  obtain ⟨r, hr, hrol⟩ := h
  exact ⟨r, List.mem_append_left t hr, hrol⟩

theorem tieneAdmin_map (l : List Usuario) (g : Usuario → Usuario)
    (hg : ∀ x, (g x).rol = x.rol) (h : ∃ r ∈ l, r.rol = "admin") :
    ∃ r ∈ l.map g, r.rol = "admin" := by
  obtain ⟨r, hr, hrol⟩ := h
  exact ⟨g r, List.mem_map_of_mem g hr, (hg r).trans hrol⟩

theorem cambiar_ok (sha : String → String) (db : DB) (uid : Nat)
    (actual nueva confirmar : String) (rec : Usuario)
    (ha : actual ≠ "") (hnv : nueva ≠ "") (hcf : confirmar ≠ "")
    (heq : nueva = confirmar) (hlen : ¬ nueva.length < 6)
    (hfind : db.usuarios.find? (fun r => r.id == uid) = some rec)
    (hpw : hash_password sha actual = rec.password) :
    cambiar_password sha db uid actual nueva confirmar =
      (true, "✅ Contraseña cambiada exitosamente",
        addLog
          { db with usuarios := db.usuarios.map (fun x =>
              if x.id == uid then { x with password := hash_password sha nueva }
              else x) }
          ⟨some uid, "USUARIOS", "CAMBIO_PASSWORD", "Usuario cambió su contraseña"⟩) := by
  subst heq
  simp [cambiar_password, ha, hnv, hlen, hfind, hpw]

theorem cambiar_wrong_current (sha : String → String) (db : DB) (uid : Nat)
    (actual nueva confirmar : String) (rec : Usuario)
    (ha : actual ≠ "") (hnv : nueva ≠ "") (hcf : confirmar ≠ "")
    (heq : nueva = confirmar) (hlen : ¬ nueva.length < 6)
    (hfind : db.usuarios.find? (fun r => r.id == uid) = some rec)
    (hpw : hash_password sha actual ≠ rec.password) :
    cambiar_password sha db uid actual nueva confirmar =
      (false, "❌ Contraseña actual incorrecta", db) := by
  subst heq
  simp [cambiar_password, ha, hnv, hlen, hfind, hpw]

theorem cambiar_short (sha : String → String) (db : DB) (uid : Nat)
    (actual nueva confirmar : String) (h : nueva.length < 6) :
    (cambiar_password sha db uid actual nueva confirmar).1 = false ∧
    (cambiar_password sha db uid actual nueva confirmar).2.2 = db := by
  by_cases h1 : (actual == "" || nueva == "" || confirmar == "") = true
  · simp [cambiar_password, h1]
  · by_cases h2 : (nueva != confirmar) = true
    · simp [cambiar_password, h1, h2]
    · simp [cambiar_password, h1, h2, h]

theorem cambiar_preserva_admin (sha : String → String) (db : DB) (uid : Nat)
    (a n c : String) (h : ∃ r ∈ db.usuarios, r.rol = "admin") :
    ∃ r ∈ (cambiar_password sha db uid a n c).2.2.usuarios, r.rol = "admin" := by
  by_cases h1 : (a == "" || n == "" || c == "") = true
  · have heq : (cambiar_password sha db uid a n c).2.2.usuarios = db.usuarios := by
      simp [cambiar_password, h1]
    rw [heq]; exact h
  · by_cases h2 : (n != c) = true
    · have heq : (cambiar_password sha db uid a n c).2.2.usuarios = db.usuarios := by
        simp [cambiar_password, h1, h2]
      rw [heq]; exact h
    · by_cases h3 : n.length < 6
      · have heq : (cambiar_password sha db uid a n c).2.2.usuarios = db.usuarios := by
          simp [cambiar_password, h1, h2, h3]
        rw [heq]; exact h
      · rcases hf : db.usuarios.find? (fun r => r.id == uid) with _ | rec
        · have heq : (cambiar_password sha db uid a n c).2.2.usuarios = db.usuarios := by
            simp [cambiar_password, h1, h2, h3, hf]
          rw [heq]; exact h
        · by_cases h4 : (hash_password sha a == rec.password) = true
          · have heq : (cambiar_password sha db uid a n c).2.2.usuarios =
                db.usuarios.map (fun x =>
                  if x.id == uid then { x with password := hash_password sha n }
                  else x) := by
              simp [cambiar_password, h1, h2, h3, hf, h4, addLog]
            rw [heq]
            exact tieneAdmin_map _ _
              (fun x => by by_cases hx : (x.id == uid) = true <;> simp [hx]) h
          · have heq : (cambiar_password sha db uid a n c).2.2.usuarios = db.usuarios := by
              simp [cambiar_password, h1, h2, h3, hf, h4]
            rw [heq]; exact h

theorem autenticarF_preserva_admin (sha : String → String) (now : Nat)
    (f : Faults) (db : DB) (u p : String)
    (h : ∃ r ∈ db.usuarios, r.rol = "admin") :
    ∃ r ∈ (autenticarF sha now f db u p).2.usuarios, r.rol = "admin" := by
  rcases f with ⟨fl, ft, flo, flf, fiu, fil⟩
  cases fl
  case true =>
    have heq : (autenticarF sha now ⟨true, ft, flo, flf, fiu, fil⟩ db u p).2.usuarios
        = db.usuarios := by
      simp [autenticarF, autenticarBody, pure, Except.pure, bind, Except.bind]
    rw [heq]; exact h
  case false =>
    rcases hb : buscarCredencial db u (hash_password sha p) with _ | rec
    · cases flf
      case true =>
        have heq : (autenticarF sha now ⟨false, ft, flo, true, fiu, fil⟩ db u p).2.usuarios
            = db.usuarios := by
          simp [autenticarF, autenticarBody, hb, addLog,
            pure, Except.pure, bind, Except.bind]
        rw [heq]; exact h
      case false =>
        have heq : (autenticarF sha now ⟨false, ft, flo, false, fiu, fil⟩ db u p).2.usuarios
            = db.usuarios := by
          simp [autenticarF, autenticarBody, hb, addLog,
            pure, Except.pure, bind, Except.bind]
        rw [heq]; exact h
    · cases ft
      case true =>
        have heq : (autenticarF sha now ⟨false, true, flo, flf, fiu, fil⟩ db u p).2.usuarios
            = db.usuarios := by
          simp [autenticarF, autenticarBody, hb, pure, Except.pure, bind, Except.bind]
        rw [heq]; exact h
      case false =>
        cases flo
        case true =>
          have heq : (autenticarF sha now ⟨false, false, true, flf, fiu, fil⟩ db u p).2.usuarios
              = db.usuarios.map (fun r =>
                  if r.id == rec.id then { r with ultimo_acceso := some now } else r) := by
            simp [autenticarF, autenticarBody, hb, addLog, touchUltimoAcceso,
              pure, Except.pure, bind, Except.bind]
          rw [heq]
          exact tieneAdmin_map _ _
            (fun x => by by_cases hx : (x.id == rec.id) = true <;> simp [hx]) h
        case false =>
          have heq : (autenticarF sha now ⟨false, false, false, flf, fiu, fil⟩ db u p).2.usuarios
              = db.usuarios.map (fun r =>
                  if r.id == rec.id then { r with ultimo_acceso := some now } else r) := by
            simp [autenticarF, autenticarBody, hb, addLog, touchUltimoAcceso,
              pure, Except.pure, bind, Except.bind]
          rw [heq]
          exact tieneAdmin_map _ _
            (fun x => by by_cases hx : (x.id == rec.id) = true <;> simp [hx]) h

theorem init_preserva_admin (sha : String → String) (now : Nat) (db : DB)
    (h : ∃ r ∈ db.usuarios, r.rol = "admin") :
    ∃ r ∈ (init_database sha now db).usuarios, r.rol = "admin" := by
  unfold init_database
  split
  · exact tieneAdmin_append _ _ h
  · exact h

theorem init_empty_admin (sha : String → String) (now : Nat) :
    ∃ r ∈ (init_database sha now emptyDB).usuarios, r.rol = "admin" := by
  refine ⟨adminUsuario sha now 1, ?_, rfl⟩
  simp [init_database, emptyDB, adminUsuario]

theorem applyOp_preserva_admin (sha : String → String) (db : DB) (op : Op)
    (h : ∃ r ∈ db.usuarios, r.rol = "admin") :
    ∃ r ∈ (applyOp sha db op).usuarios, r.rol = "admin" := by
  cases op with
  | opInit now => exact init_preserva_admin sha now db h
  | opCrear now a d f =>
      obtain ⟨t, ht⟩ := crearF_usuarios_extend sha now f db a d
      show ∃ r ∈ (crearF sha now f db a d).2.2.usuarios, r.rol = "admin"
      rw [ht]
      exact tieneAdmin_append _ _ h
  | opCambiar uid a n c => exact cambiar_preserva_admin sha db uid a n c h
  | opAuth now u p f => exact autenticarF_preserva_admin sha now f db u p h

theorem foldl_preserva_admin (sha : String → String) (ops : List Op) (db : DB)
    (h : ∃ r ∈ db.usuarios, r.rol = "admin") :
    ∃ r ∈ (ops.foldl (applyOp sha) db).usuarios, r.rol = "admin" := by
  induction ops generalizing db with
  | nil => exact h
  | cons op rest ih => exact ih _ (applyOp_preserva_admin sha db op h)

theorem run_tieneAdmin (sha : String → String) (ops : List Op) :
    ∃ r ∈ (run sha ops).usuarios, r.rol = "admin" :=
  foldl_preserva_admin sha ops _ (init_empty_admin sha 0)

end Panaderia
namespace Panaderia

theorem buscarCredencial_of_usuarios (db : DB) (u hp : String)
    (nuevo : Usuario) (l : List Usuario) (husers : db.usuarios = l ++ [nuevo])
    (h1 : l.find? (fun r => r.username == u && r.password == hp && r.activo)
      = none)
    (hu : nuevo.username = u) (hpw : nuevo.password = hp)
    (hact : nuevo.activo = true) :
    buscarCredencial db u hp = some nuevo := by
  unfold buscarCredencial
  rw [husers, List.find?_append, h1]
  simp [List.find?, hu, hpw, hact]

/-- C1: creating a user with a fresh username through crear_usuario_sistema
and then calling autenticar_usuario with the same username and password
succeeds and returns an Identity whose rol equals the rol supplied at
creation. -/
theorem C1_crear_luego_autenticar (sha : String → String) (now now2 : Nat)
    (db : DB) (aid : Nat) (d : DatosUsuario) (u nom rol pw : String)
    (hu : d.username = some u) (hn : d.nombre = some nom)
    (hr : d.rol = some rol) (hp : d.password = some pw)
    (hfresh : ∀ r ∈ db.usuarios, r.username ≠ u) :
    (crear_usuario_sistema sha now db aid d).1 = true ∧
    ∃ ident,
      (autenticar_usuario sha now2 (crear_usuario_sistema sha now db aid d).2.2
        u pw).1 = some ident ∧ ident.rol = rol := by
  have hc := crear_ok sha now db aid d u nom rol pw hu hn hr hp hfresh
  have h1 : db.usuarios.find?
      (fun r => r.username == u && r.password == hash_password sha pw
        && r.activo) = none := by
    apply List.find?_eq_none.mpr
    intro r hrm
    simp [hfresh r hrm]
  have hfind : buscarCredencial (crear_usuario_sistema sha now db aid d).2.2
      u (hash_password sha pw) =
      some ⟨db.nextId, u, nom, rol, hash_password sha pw, d.permisos.getD "",
        d.email.getD "", d.telefono.getD "", d.departamento.getD "",
        some aid, now, none, true⟩ := by
    apply buscarCredencial_of_usuarios _ _ _ _ db.usuarios _ h1 rfl rfl rfl
    rw [hc]
    rfl
  refine ⟨by rw [hc], ?_⟩
  rw [autenticar_match sha now2 _ u pw _ hfind]
  exact ⟨_, rfl, rfl⟩

/-- C2: for a store in which every record carrying the given username is
inactive, autenticar_usuario returns None even when the submitted password
digest matches the stored one. -/
theorem C2_inactivo_falla (sha : String → String) (now : Nat) (db : DB)
    (u p : String) (h : ∀ r ∈ db.usuarios, r.username = u → r.activo = false) :
    (autenticar_usuario sha now db u p).1 = none := by
  rw [autenticar_noMatch sha now db u p (buscarCredencial_eq_none db u _ h)]

/-- C3: every successful autenticar_usuario call returns exactly the
projection of the matched row to id, username, nombre, rol and permisos (the
Identity structure has no digest field), and that projection is independent
of the stored password digest. -/
theorem C3_identity_sin_digest :
    (∀ (sha : String → String) (now : Nat) (db : DB) (u p : String)
        (ident : Identity) (db2 : DB),
        autenticar_usuario sha now db u p = (some ident, db2) →
        ∃ rec ∈ db.usuarios, ident = toIdentity rec) ∧
    (∀ (r : Usuario) (d' : String),
        toIdentity { r with password := d' } = toIdentity r) := by
  constructor
  · intro sha now db u p ident db2 h
    rcases hb : buscarCredencial db u (hash_password sha p) with _ | rec
    · rw [autenticar_noMatch sha now db u p hb] at h
      simp at h
    · rw [autenticar_match sha now db u p rec hb] at h
      have h1 : some (toIdentity rec) = some ident := congrArg Prod.fst h
      exact ⟨rec, List.mem_of_find?_eq_some hb, (Option.some.inj h1).symm⟩
  · intro r d'
    rfl

/-- C4: the role to section table of mostrar_menu_principal, via isAllowed
(sections named as in the code: dashboard, inventario, usuarios, ventas,
reportes, configuracion).  The admin, ventas and produccion rows are exactly
the sets of the spec table, and every other role value, known or unknown,
gets only dashboard and inventario (fail-closed).  Totality and determinism
hold by construction: isAllowed is a pure total function. -/
theorem C4_tabla_roles :
    (∀ s, isAllowed "admin" s = true ↔
      s = "dashboard" ∨ s = "inventario" ∨ s = "usuarios" ∨ s = "ventas" ∨
      s = "reportes" ∨ s = "configuracion") ∧
    (∀ s, isAllowed "ventas" s = true ↔
      s = "dashboard" ∨ s = "inventario" ∨ s = "ventas" ∨ s = "reportes") ∧
    (∀ s, isAllowed "produccion" s = true ↔
      s = "dashboard" ∨ s = "inventario" ∨ s = "reportes") ∧
    (∀ r s, r ≠ "admin" → r ≠ "ventas" → r ≠ "produccion" →
      (isAllowed r s = true ↔ s = "dashboard" ∨ s = "inventario")) := by
  refine ⟨?_, ?_, ?_, ?_⟩
  · intro s
    simp [isAllowed, opciones_menu, List.elem_iff]
  · intro s
    simp [isAllowed, opciones_menu, List.elem_iff]
  · intro s
    simp [isAllowed, opciones_menu, List.elem_iff]
  · intro r s h1 h2 h3
    simp [isAllowed, opciones_menu, List.elem_iff, h1, h2, h3]

end Panaderia
namespace Panaderia

theorem init_count_pos (sha : String → String) (now : Nat) (db : DB) :
    (init_database sha now db).usuarios.countP
      (fun r => r.username == "admin") ≠ 0 := by
  by_cases h0 : db.usuarios.countP (fun r => r.username == "admin") = 0
  · unfold init_database
    rw [if_pos h0]
    simp [List.countP_append, h0, adminUsuario]
  · unfold init_database
    rw [if_neg h0]
    exact h0

/-- C5: on a store with no row whose username is admin, init_database creates
exactly one admin-username row, with rol admin and the digest of the
well-known default password Admin2024!; after initialization of a fresh
store, an admin-role row exists through any sequence of modelled operations
(bootstrap invariant); and a second initialization run is a no-op. -/
theorem C5_bootstrap (sha : String → String) :
    (∀ db now, db.usuarios.countP (fun r => r.username == "admin") = 0 →
      (init_database sha now db).usuarios.countP
        (fun r => r.username == "admin") = 1 ∧
      ∃ rec ∈ (init_database sha now db).usuarios,
        rec.username = "admin" ∧ rec.rol = "admin" ∧
        rec.password = hash_password sha "Admin2024!") ∧
    (∀ ops, ∃ rec ∈ (run sha ops).usuarios, rec.rol = "admin") ∧
    (∀ db now1 now2,
      init_database sha now2 (init_database sha now1 db) =
        init_database sha now1 db) := by
  refine ⟨?_, run_tieneAdmin sha, ?_⟩
  · intro db now h0
    constructor
    · unfold init_database
      rw [if_pos h0]
      simp [List.countP_append, h0, adminUsuario]
    · refine ⟨adminUsuario sha now db.nextId, ?_, rfl, rfl, rfl⟩
      unfold init_database
      rw [if_pos h0]
      simp
  · intro db now1 now2
    conv_lhs => rw [init_database]
    rw [if_neg (init_count_pos sha now1 db)]

end Panaderia
namespace Panaderia

/-- C6: crear_usuario_sistema fails with the duplicate-username message and
leaves the store unchanged when a row with the submitted username exists;
fails leaving the store unchanged when any required field (username,
password, nombre, rol) is absent; and succeeds appending exactly one row
carrying the fresh AUTOINCREMENT id when neither condition holds. -/
theorem C6_crear_validacion (sha : String → String) :
    (∀ now db aid d u, d.username = some u →
        (∃ r ∈ db.usuarios, r.username = u) →
        crear_usuario_sistema sha now db aid d =
          (false, "El nombre de usuario ya existe", db)) ∧
    (∀ now db aid d, d.username = none →
        (crear_usuario_sistema sha now db aid d).1 = false ∧
        (crear_usuario_sistema sha now db aid d).2.2 = db) ∧
    (∀ now db aid d u, d.username = some u →
        (∀ r ∈ db.usuarios, r.username ≠ u) →
        (d.password = none ∨ d.nombre = none ∨ d.rol = none) →
        (crear_usuario_sistema sha now db aid d).1 = false ∧
        (crear_usuario_sistema sha now db aid d).2.2 = db) ∧
    (∀ now db aid d u nom rol pw, d.username = some u → d.nombre = some nom →
        d.rol = some rol → d.password = some pw →
        (∀ r ∈ db.usuarios, r.username ≠ u) →
        (crear_usuario_sistema sha now db aid d).1 = true ∧
        ∃ nuevo, (crear_usuario_sistema sha now db aid d).2.2.usuarios =
            db.usuarios ++ [nuevo] ∧ nuevo.id = db.nextId ∧
            nuevo.username = u) := by
  refine ⟨fun now db aid d u hu hdup => crear_duplicate sha now db aid d u hu hdup, ?_, ?_, ?_⟩
  · intro now db aid d hu
    simp [crear_usuario_sistema, crearF, crearBody, noFaults, hu,
      pure, Except.pure, bind, Except.bind]
  · intro now db aid d u hu hfresh hmiss
    have hany : db.usuarios.any (fun r => r.username == u) = false := by
      rw [← Bool.not_eq_true, List.any_eq_true]
      rintro ⟨r, hrmem, hru⟩
      exact hfresh r hrmem (by simpa using hru)
    rcases hmiss with hm | hm | hm
    · simp [crear_usuario_sistema, crearF, crearBody, noFaults, hu, hany, hm,
        pure, Except.pure, bind, Except.bind]
    · rcases hpw : d.password with _ | pw <;>
        simp [crear_usuario_sistema, crearF, crearBody, noFaults, hu, hany,
          hm, hpw, pure, Except.pure, bind, Except.bind]
    · rcases hpw : d.password with _ | pw <;>
        rcases hnom : d.nombre with _ | nom <;>
        simp [crear_usuario_sistema, crearF, crearBody, noFaults, hu, hany,
          hm, hpw, hnom, pure, Except.pure, bind, Except.bind]
  · intro now db aid d u nom rol pw hu hn hr hp hfresh
    have hc := crear_ok sha now db aid d u nom rol pw hu hn hr hp hfresh
    rw [hc]
    exact ⟨rfl, ⟨_, rfl, rfl, rfl⟩⟩

end Panaderia
namespace Panaderia

/-- C7 counterexample: the store holds an active user whose stored digest
matches the submitted password, yet when the ultimo_acceso update raises,
autenticar_usuario returns None instead of the Identity the claim promises:
the bookkeeping step is not best-effort in the code. -/
theorem C7_contraejemplo :
    (∃ rec ∈ dbJdoe.usuarios, rec.username = "jdoe" ∧ rec.activo = true ∧
        rec.password = hash_password shaId "Baker99") ∧
    (autenticarF shaId 7 ⟨false, true, false, false, false, false⟩ dbJdoe
        "jdoe" "Baker99").1 = none := by
  refine ⟨⟨jdoeUsuario, by simp [dbJdoe], rfl, rfl, rfl⟩, ?_⟩
  rfl

/-- C7 amended: a storage fault in the ultimo_acceso update inside
autenticar_usuario is caught by the surrounding handler and converts the
call into an AuthFailure (None), for every store and credential pair; the
lastAccessAt bookkeeping is fail-closed, not best-effort. -/
theorem C7_touch_no_best_effort (sha : String → String) (now : Nat)
    (f : Faults) (db : DB) (u p : String) (h : f.touch = true) :
    (autenticarF sha now f db u p).1 = none := by
  rcases f with ⟨fl, ft, flo, flf, fiu, fil⟩
  simp only at h
  subst h
  cases fl
  case false =>
    rcases hb : buscarCredencial db u (hash_password sha p) with _ | rec
    · cases flf <;>
        simp [autenticarF, autenticarBody, hb, pure, Except.pure, bind,
          Except.bind]
    · simp [autenticarF, autenticarBody, hb, pure, Except.pure, bind,
        Except.bind]
  case true =>
    simp [autenticarF, autenticarBody, pure, Except.pure, bind, Except.bind]

theorem C7_touch_no_best_effort_witness :
    (autenticarF shaId 7 ⟨false, true, false, false, false, false⟩ dbJdoe
      "jdoe" "Baker99").1 = none :=
  C7_touch_no_best_effort shaId 7 ⟨false, true, false, false, false, false⟩
    dbJdoe "jdoe" "Baker99" rfl

/-- C9: every storage-layer fault raised inside the try block of
autenticar_usuario is caught and mapped to None; the caller-visible result
carries no internal error detail, only the AuthFailure signal and the
database state committed before the fault. -/
theorem C9_fallo_mapea_none (sha : String → String) (now : Nat) (f : Faults)
    (db : DB) (u p : String) (e : DB)
    (h : autenticarBody sha now f db u p = Except.error e) :
    autenticarF sha now f db u p = (none, e) := by
  simp [autenticarF, h]

theorem C9_fallo_mapea_none_witness :
    autenticarF shaId 7 ⟨true, false, false, false, false, false⟩ dbJdoe
      "jdoe" "Baker99" = (none, dbJdoe) :=
  C9_fallo_mapea_none shaId 7 ⟨true, false, false, false, false, false⟩
    dbJdoe "jdoe" "Baker99" dbJdoe rfl

/-- C10: crear_usuario_sistema is not atomic on failure: when the audit-log
insert raises after the user insert was committed, the call reports failure
yet the new user row is durably in the store (and the function returns a
result pair rather than raising). -/
theorem C10_no_atomico (sha : String → String) (now : Nat) (db : DB)
    (aid : Nat) (d : DatosUsuario) (u nom rol pw : String)
    (hu : d.username = some u) (hn : d.nombre = some nom)
    (hr : d.rol = some rol) (hp : d.password = some pw)
    (hfresh : ∀ r ∈ db.usuarios, r.username ≠ u) :
    (crearF sha now ⟨false, false, false, false, false, true⟩ db aid d).1 =
      false ∧
    ∃ nuevo,
      (crearF sha now ⟨false, false, false, false, false, true⟩
        db aid d).2.2.usuarios = db.usuarios ++ [nuevo] ∧
      nuevo.username = u := by
  have h := crearF_logFault sha now db aid d u nom rol pw hu hn hr hp hfresh
  rw [h]
  exact ⟨rfl, ⟨_, rfl, rfl⟩⟩

end Panaderia
namespace Panaderia

/-- C8: after a successful password change (current digest matched, new
password at least 6 characters, confirmation equal), authenticating with the
old password fails and authenticating with the new one succeeds; a wrong
current password returns the failure message leaving the store unchanged;
and a new password under 6 characters is rejected leaving the store
unchanged. -/
theorem C8_cambiar_password (sha : String → String) :
    (∀ db uid u actual nueva confirmar rec now now2,
        actual ≠ "" → nueva ≠ "" → confirmar ≠ "" → nueva = confirmar →
        ¬ nueva.length < 6 →
        db.usuarios.find? (fun r => r.id == uid) = some rec →
        hash_password sha actual = rec.password →
        rec.username = u → rec.activo = true →
        (∀ r ∈ db.usuarios, r.username = u → r.id = uid) →
        (∀ r ∈ db.usuarios, r.id = uid → r = rec) →
        hash_password sha actual ≠ hash_password sha nueva →
        (cambiar_password sha db uid actual nueva confirmar).1 = true ∧
        (autenticar_usuario sha now
          (cambiar_password sha db uid actual nueva confirmar).2.2
          u actual).1 = none ∧
        ∃ ident, (autenticar_usuario sha now2
          (cambiar_password sha db uid actual nueva confirmar).2.2
          u nueva).1 = some ident) ∧
    (∀ db uid actual nueva confirmar rec,
        actual ≠ "" → nueva ≠ "" → confirmar ≠ "" → nueva = confirmar →
        ¬ nueva.length < 6 →
        db.usuarios.find? (fun r => r.id == uid) = some rec →
        hash_password sha actual ≠ rec.password →
        cambiar_password sha db uid actual nueva confirmar =
          (false, "❌ Contraseña actual incorrecta", db)) ∧
    (∀ db uid actual nueva confirmar, nueva.length < 6 →
        (cambiar_password sha db uid actual nueva confirmar).1 = false ∧
        (cambiar_password sha db uid actual nueva confirmar).2.2 = db) := by
  refine ⟨?_, fun db uid a n c rec ha hn hc heq hlen hf hw =>
      cambiar_wrong_current sha db uid a n c rec ha hn hc heq hlen hf hw,
    fun db uid a n c h => cambiar_short sha db uid a n c h⟩
  intro db uid u actual nueva confirmar rec now now2 ha hn hc heq hlen hfind
    hpw huser hact huniqU huniqI hne
  have hok := cambiar_ok sha db uid actual nueva confirmar rec ha hn hc heq
    hlen hfind hpw
  have hrecid : (rec.id == uid) = true := by simpa using List.find?_some hfind
  have hrecmem : rec ∈ db.usuarios := List.mem_of_find?_eq_some hfind
  have husers : (cambiar_password sha db uid actual nueva confirmar).2.2.usuarios
      = db.usuarios.map (fun x =>
          if x.id == uid then { x with password := hash_password sha nueva }
          else x) := by
    rw [hok]
    rfl
  refine ⟨by rw [hok], ?_, ?_⟩
  · have hnone : buscarCredencial
        (cambiar_password sha db uid actual nueva confirmar).2.2 u
        (hash_password sha actual) = none := by
      unfold buscarCredencial
      rw [husers]
      apply List.find?_eq_none.mpr
      intro x hx
      obtain ⟨r, hrm, hrx⟩ := List.mem_map.mp hx
      subst hrx
      by_cases hid : (r.id == uid) = true
      · have hre : r = rec := huniqI r hrm (by simpa using hid)
        subst hre
        simp [hid, Ne.symm hne]
      · have hru : r.username ≠ u := by
          intro hcontr
          exact hid (by simpa using huniqU r hrm hcontr)
        simp [hid, hru]
    rw [autenticar_noMatch sha now _ u actual hnone]
  · rcases hb : buscarCredencial
        (cambiar_password sha db uid actual nueva confirmar).2.2 u
        (hash_password sha nueva) with _ | rec2
    · exfalso
      have hmem2 : (fun x =>
            if x.id == uid then { x with password := hash_password sha nueva }
            else x) rec
          ∈ (cambiar_password sha db uid actual nueva confirmar).2.2.usuarios := by
        rw [husers]
        exact List.mem_map_of_mem _ hrecmem
      unfold buscarCredencial at hb
      have hfalse := List.find?_eq_none.mp hb _ hmem2
      apply hfalse
      simp [hrecid, huser, hact]
    · rw [autenticar_match sha now2 _ u nueva rec2 hb]
      exact ⟨toIdentity rec2, rfl⟩

end Panaderia
namespace Panaderia

theorem C1_crear_luego_autenticar_witness :
    (crear_usuario_sistema shaId 1 dbJdoe 2 datosMaria).1 = true ∧
    ∃ ident, (autenticar_usuario shaId 2
        (crear_usuario_sistema shaId 1 dbJdoe 2 datosMaria).2.2
        "maria" "Clave123").1 = some ident ∧ ident.rol = "ventas" :=
  C1_crear_luego_autenticar shaId 1 2 dbJdoe 2 datosMaria "maria"
    "Maria Lopez" "ventas" "Clave123" rfl rfl rfl rfl (by decide)

theorem C2_inactivo_falla_witness :
    (autenticar_usuario shaId 9 dbJdoeInactivo "jdoe" "Baker99").1 = none :=
  C2_inactivo_falla shaId 9 dbJdoeInactivo "jdoe" "Baker99" (by decide)

theorem C3_identity_sin_digest_witness :
    ∃ rec ∈ dbJdoe.usuarios, toIdentity jdoeUsuario = toIdentity rec :=
  C3_identity_sin_digest.1 shaId 9 dbJdoe "jdoe" "Baker99"
    (toIdentity jdoeUsuario)
    (autenticar_usuario shaId 9 dbJdoe "jdoe" "Baker99").2 (by decide)

theorem C4_tabla_roles_witness :
    isAllowed "visor" "inventario" = true ↔
      "inventario" = "dashboard" ∨ "inventario" = "inventario" :=
  C4_tabla_roles.2.2.2 "visor" "inventario" (by decide) (by decide) (by decide)

theorem C5_bootstrap_witness :
    (init_database shaId 5 emptyDB).usuarios.countP
      (fun r => r.username == "admin") = 1 ∧
    ∃ rec ∈ (init_database shaId 5 emptyDB).usuarios,
      rec.username = "admin" ∧ rec.rol = "admin" ∧
      rec.password = hash_password shaId "Admin2024!" :=
  (C5_bootstrap shaId).1 emptyDB 5 (by decide)

theorem C6_crear_validacion_witness :
    crear_usuario_sistema shaId 1 dbJdoe 2
      ⟨some "jdoe", some "Otro", some "ventas", some "Clave123",
        none, none, none, none⟩ =
      (false, "El nombre de usuario ya existe", dbJdoe) :=
  (C6_crear_validacion shaId).1 1 dbJdoe 2
    ⟨some "jdoe", some "Otro", some "ventas", some "Clave123",
      none, none, none, none⟩ "jdoe" rfl ⟨jdoeUsuario, by decide, rfl⟩

theorem C8_cambiar_password_witness :
    (cambiar_password shaId dbJdoe 2 "Baker99" "New12345" "New12345").1 =
      true ∧
    (autenticar_usuario shaId 3
      (cambiar_password shaId dbJdoe 2 "Baker99" "New12345" "New12345").2.2
      "jdoe" "Baker99").1 = none ∧
    ∃ ident, (autenticar_usuario shaId 4
      (cambiar_password shaId dbJdoe 2 "Baker99" "New12345" "New12345").2.2
      "jdoe" "New12345").1 = some ident :=
  (C8_cambiar_password shaId).1 dbJdoe 2 "jdoe" "Baker99" "New12345"
    "New12345" jdoeUsuario 3 4 (by decide) (by decide) (by decide) rfl
    (by decide) (by decide) rfl rfl rfl (by decide) (by decide) (by decide)

theorem C10_no_atomico_witness :
    (crearF shaId 1 ⟨false, false, false, false, false, true⟩ dbJdoe 2
      datosMaria).1 = false ∧
    ∃ nuevo, (crearF shaId 1 ⟨false, false, false, false, false, true⟩
        dbJdoe 2 datosMaria).2.2.usuarios = dbJdoe.usuarios ++ [nuevo] ∧
      nuevo.username = "maria" :=
  C10_no_atomico shaId 1 dbJdoe 2 datosMaria "maria" "Maria Lopez" "ventas"
    "Clave123" rfl rfl rfl rfl (by decide)

end Panaderia
